import Mathlib

/-!
Verification development for the schema-gen Universal Schema Representation
(USR) core and two of its backends (Avro, Protobuf), shallowly embedded from
src/schema_gen/core/usr.py, src/schema_gen/generators/avro_generator.py and
src/schema_gen/generators/protobuf_generator.py.

Modelling conventions:
- Python runtime type expressions (the inputs TypeMapper inspects via
  typing.get_origin / typing.get_args) are embedded as the inductive PyType.
  A typing.Union[...] expression and a PEP 604 `X | Y` expression
  (types.UnionType, the form produced by the `|` operator on Python
  3.10-3.13, as named by the source comment "Python 3.12+ syntax") are
  distinct runtime objects and are embedded as distinct constructors,
  because typing.get_origin returns typing.Union for the former and
  types.UnionType for the latter, and the source tests the two differently.
- Machine floats in constraint slots (min_value/max_value) only ever hold
  integer bounds in the width-selection comparisons the claims concern;
  they are embedded as Option Int, on which Python comparison agrees with
  integer comparison.
- `None` defaults are Option.none; Python truthiness of strings and lists
  is made explicit where the source relies on it.
-/

namespace SchemaGen

/-- Embedding of the Python runtime type expressions inspected by
TypeMapper.  Bare builtins (the keys of TypeMapper._type_mapping) are
separate constructors from their parametrized generic-alias forms, because
the source distinguishes them (`python_type in cls._type_mapping` versus
`typing.get_origin(python_type)`). -/
inductive PyType : Type where
  | pyStr | pyInt | pyFloat | pyBool | pyBytes
  | pyDict | pyList | pySet | pyFrozenset | pyTuple
  | noneType
  | pyDatetime | pyDate | pyTime | pyUuid | pyDecimal
  | ellipsisT
  | forwardRef (s : String)
  | union (args : List PyType)
  | unionOp (args : List PyType)
  | listOf (args : List PyType)
  | setOf (args : List PyType)
  | frozensetOf (args : List PyType)
  | tupleOf (args : List PyType)
  | dictOf (args : List PyType)
  | literalOf (vals : List String)
  | enumT (n : String) (vals : List String)
  | annotated (base : PyType)
  | classRef (n : String)
deriving Repr

/-- `arg is type(None)` identity test from the source. -/
def PyType.isNone : PyType → Bool
  | .noneType => true
  | _ => false

/-- `args[1] is Ellipsis` identity test from the source. -/
def PyType.isEllipsis : PyType → Bool
  | .ellipsisT => true
  | _ => false

/-- The FieldType enumeration from core/usr.py. -/
inductive FieldType : Type where
  | STRING | INTEGER | FLOAT | BOOLEAN | DATETIME | DATE | TIME | UUID
  | DECIMAL | JSON | BYTES | LIST | SET | FROZENSET | TUPLE | DICT
  | UNION | OPTIONAL | LITERAL | ENUM | NESTED_SCHEMA
deriving DecidableEq, Repr

/-- The `.value` string of each FieldType member. -/
def FieldType.value : FieldType → String
  | .STRING => "string" | .INTEGER => "integer" | .FLOAT => "float"
  | .BOOLEAN => "boolean" | .DATETIME => "datetime" | .DATE => "date"
  | .TIME => "time" | .UUID => "uuid" | .DECIMAL => "decimal"
  | .JSON => "json" | .BYTES => "bytes" | .LIST => "list"
  | .SET => "set" | .FROZENSET => "frozenset" | .TUPLE => "tuple"
  | .DICT => "dict" | .UNION => "union" | .OPTIONAL => "optional"
  | .LITERAL => "literal" | .ENUM => "enum" | .NESTED_SCHEMA => "nested_schema"

/-- NUMERIC_TYPES from core/usr.py (membership is all the source uses). -/
def NUMERIC_TYPES : List FieldType := [.INTEGER, .FLOAT, .DECIMAL]

/-- STRING_LIKE_TYPES from core/usr.py. -/
def STRING_LIKE_TYPES : List FieldType :=
  [.STRING, .LIST, .SET, .FROZENSET, .BYTES]

/-- TypeMapper.python_type_to_usr from core/usr.py, branch for branch.
A string forward reference classifies as NESTED_SCHEMA; Annotated unwraps
and recurses; bare builtins hit _type_mapping; a typing.Union with exactly
two members one of which is NoneType is OPTIONAL, any other typing.Union is
UNION; parametrized containers classify by origin; recognized stdlib types
next; Literal and Enum next; everything else - including a PEP 604
types.UnionType value, whose origin is not typing.Union and which is not an
instance of `type` - falls through to NESTED_SCHEMA. -/
def python_type_to_usr : PyType → FieldType
  | .forwardRef _ => .NESTED_SCHEMA
  | .annotated base => python_type_to_usr base
  | .pyStr => .STRING
  | .pyInt => .INTEGER
  | .pyFloat => .FLOAT
  | .pyBool => .BOOLEAN
  | .pyBytes => .BYTES
  | .pyDict => .DICT
  | .pyList => .LIST
  | .pySet => .SET
  | .pyFrozenset => .FROZENSET
  | .pyTuple => .TUPLE
  | .union args =>
    match args with
    | [a, b] => if a.isNone || b.isNone then .OPTIONAL else .UNION
    | _ => .UNION
  | .listOf _ => .LIST
  | .setOf _ => .SET
  | .frozensetOf _ => .FROZENSET
  | .tupleOf _ => .TUPLE
  | .dictOf _ => .DICT
  | .pyDatetime => .DATETIME
  | .pyDate => .DATE
  | .pyTime => .TIME
  | .pyUuid => .UUID
  | .pyDecimal => .DECIMAL
  | .literalOf _ => .LITERAL
  | .enumT _ _ => .ENUM
  | .unionOp _ => .NESTED_SCHEMA
  | .noneType => .NESTED_SCHEMA
  | .ellipsisT => .NESTED_SCHEMA
  | .classRef _ => .NESTED_SCHEMA

/-- JSON-like values, the shape of what the Avro generator builds before
json.dumps.  A Python str is `str`, a dict is `obj` with insertion-ordered
keys, a list is `arr`, None is `null`. -/
inductive Json : Type where
  | str (s : String)
  | num (n : Int)
  | bool (b : Bool)
  | null
  | arr (xs : List Json)
  | obj (members : List (String × Json))
deriving Repr

mutual

/-- Structural equality on Json, the meaning of Python `==` / `in` on the
values the Avro generator compares. -/
def Json.beq : Json → Json → Bool
  | .str a, .str b => a == b
  | .num a, .num b => a == b
  | .bool a, .bool b => a == b
  | .null, .null => true
  | .arr a, .arr b => Json.beqList a b
  | .obj a, .obj b => Json.beqMembers a b
  | _, _ => false

def Json.beqList : List Json → List Json → Bool
  | [], [] => true
  | a :: as, b :: bs => Json.beq a b && Json.beqList as bs
  | _, _ => false

def Json.beqMembers : List (String × Json) → List (String × Json) → Bool
  | [], [] => true
  | (k1, v1) :: as, (k2, v2) :: bs =>
    k1 == k2 && Json.beq v1 v2 && Json.beqMembers as bs
  | _, _ => false

end

instance : BEq Json := ⟨Json.beq⟩

/-- Python `t == "null"` against an arbitrary Avro branch value. -/
def Json.isNullStr : Json → Bool
  | .str s => s == "null"
  | _ => false

/-- Universal representation of a schema field (USRField in core/usr.py).
The recursive slots inner_type and union_types force an inductive rather
than a structure.  Attributes of the source dataclass that no operation
modelled here ever reads (default_factory, regex_pattern, format_type,
unique, index, auto_increment, auto_now_add, auto_now, back_populates,
cascade, through_table, exclude_from, include_only, target_config,
metadata, and the original python_type reference) are omitted; `default`
holds the already-JSON-encodable default value the Avro generator emits. -/
inductive USRField : Type where
  | mk
    (name : String)
    (type : FieldType)
    (optional : Bool)
    (default : Option Json)
    (inner_type : Option USRField)
    (union_types : List USRField)
    (literal_values : List String)
    (nested_schema : Option String)
    (enum_name : Option String)
    (enum_values : List String)
    (min_length : Option Int)
    (max_length : Option Int)
    (min_value : Option Int)
    (max_value : Option Int)
    (primary_key : Bool)
    (foreign_key : Option String)
    (relationship : Option String)
    (description : Option String)
deriving Repr

def USRField.name : USRField → String
  | .mk n _ _ _ _ _ _ _ _ _ _ _ _ _ _ _ _ _ => n

def USRField.type : USRField → FieldType
  | .mk _ t _ _ _ _ _ _ _ _ _ _ _ _ _ _ _ _ => t

def USRField.optional : USRField → Bool
  | .mk _ _ o _ _ _ _ _ _ _ _ _ _ _ _ _ _ _ => o

def USRField.default : USRField → Option Json
  | .mk _ _ _ d _ _ _ _ _ _ _ _ _ _ _ _ _ _ => d

def USRField.inner_type : USRField → Option USRField
  | .mk _ _ _ _ i _ _ _ _ _ _ _ _ _ _ _ _ _ => i

def USRField.union_types : USRField → List USRField
  | .mk _ _ _ _ _ u _ _ _ _ _ _ _ _ _ _ _ _ => u

def USRField.literal_values : USRField → List String
  | .mk _ _ _ _ _ _ l _ _ _ _ _ _ _ _ _ _ _ => l

def USRField.nested_schema : USRField → Option String
  | .mk _ _ _ _ _ _ _ n _ _ _ _ _ _ _ _ _ _ => n

def USRField.enum_name : USRField → Option String
  | .mk _ _ _ _ _ _ _ _ e _ _ _ _ _ _ _ _ _ => e

def USRField.enum_values : USRField → List String
  | .mk _ _ _ _ _ _ _ _ _ v _ _ _ _ _ _ _ _ => v

def USRField.min_length : USRField → Option Int
  | .mk _ _ _ _ _ _ _ _ _ _ a _ _ _ _ _ _ _ => a

def USRField.max_length : USRField → Option Int
  | .mk _ _ _ _ _ _ _ _ _ _ _ a _ _ _ _ _ _ => a

def USRField.min_value : USRField → Option Int
  | .mk _ _ _ _ _ _ _ _ _ _ _ _ a _ _ _ _ _ => a

def USRField.max_value : USRField → Option Int
  | .mk _ _ _ _ _ _ _ _ _ _ _ _ _ a _ _ _ _ => a

def USRField.primary_key : USRField → Bool
  | .mk _ _ _ _ _ _ _ _ _ _ _ _ _ _ p _ _ _ => p

def USRField.foreign_key : USRField → Option String
  | .mk _ _ _ _ _ _ _ _ _ _ _ _ _ _ _ f _ _ => f

def USRField.relationship : USRField → Option String
  | .mk _ _ _ _ _ _ _ _ _ _ _ _ _ _ _ _ r _ => r

def USRField.description : USRField → Option String
  | .mk _ _ _ _ _ _ _ _ _ _ _ _ _ _ _ _ _ d => d

/-- The declaration object (field_info) whose attributes
create_usr_field_from_python copies onto the field via getattr with inert
fallbacks.  Attributes the modelled operations never read are omitted, as
on USRField. -/
structure FieldInfo : Type where
  default : Option Json
  min_length : Option Int
  max_length : Option Int
  min_value : Option Int
  max_value : Option Int
  primary_key : Bool
  foreign_key : Option String
  relationship : Option String
  description : Option String
deriving Repr

/-- getattr(field_info, attr, None) where field_info may be None. -/
def fiDefault : Option FieldInfo → Option Json
  | none => none
  | some fi => fi.default

def fiMinLength : Option FieldInfo → Option Int
  | none => none
  | some fi => fi.min_length

def fiMaxLength : Option FieldInfo → Option Int
  | none => none
  | some fi => fi.max_length

def fiMinValue : Option FieldInfo → Option Int
  | none => none
  | some fi => fi.min_value

def fiMaxValue : Option FieldInfo → Option Int
  | none => none
  | some fi => fi.max_value

/-- getattr(field_info, "primary_key", False). -/
def fiPrimaryKey : Option FieldInfo → Bool
  | none => false
  | some fi => fi.primary_key

def fiForeignKey : Option FieldInfo → Option String
  | none => none
  | some fi => fi.foreign_key

def fiRelationship : Option FieldInfo → Option String
  | none => none
  | some fi => fi.relationship

def fiDescription : Option FieldInfo → Option String
  | none => none
  | some fi => fi.description

/-- typing.get_args of a Literal classified value (the source guards with
field_type == LITERAL before reading it). -/
def literalArgs : PyType → List String
  | .literalOf vs => vs
  | _ => []

/-- actual_type.__name__ for an Enum classified value. -/
def enumTypeName : PyType → Option String
  | .enumT n _ => some n
  | _ => none

/-- Member values, [e.value for e in actual_type], for an Enum classified value. -/
def enumTypeValues : PyType → List String
  | .enumT _ vs => vs
  | _ => []

/-- The nested_schema name for a NESTED_SCHEMA classified value: the string
itself for a forward reference, getattr(actual_type, "__name__",
str(actual_type)) otherwise.  Only the forwardRef and classRef names are
load-bearing anywhere; the remaining textual forms are best-effort
renderings of str(actual_type). -/
def pyNestedName : PyType → String
  | .forwardRef s => s
  | .classRef n => n
  | .noneType => "NoneType"
  | .ellipsisT => "Ellipsis"
  | .unionOp _ => "types.UnionType"
  | _ => "type"

/-- Assemble the USRField once the origin dispatch has fixed the optional
flag, inner_type, union_types and actual_type: classify actual_type, derive
the Literal/Enum/NESTED_SCHEMA extras from it, and copy the field_info
attributes (lines 463-527 of core/usr.py). -/
def assembleField (name : String) (fi : Option FieldInfo) (opt : Bool)
    (inner : Option USRField) (unions : List USRField) (actual : PyType) :
    USRField :=
  let field_type := python_type_to_usr actual
  USRField.mk name field_type opt (fiDefault fi) inner unions
    (if field_type = .LITERAL then literalArgs actual else [])
    (if field_type = .NESTED_SCHEMA then some (pyNestedName actual) else none)
    (if field_type = .ENUM then enumTypeName actual else none)
    (if field_type = .ENUM then enumTypeValues actual else [])
    (fiMinLength fi) (fiMaxLength fi) (fiMinValue fi) (fiMaxValue fi)
    (fiPrimaryKey fi) (fiForeignKey fi) (fiRelationship fi)
    (fiDescription fi)

mutual

/-- TypeMapper.create_usr_field_from_python from core/usr.py.  The
Annotated unwrap at the top of the source function is embedded as direct
recursion on the base type: typing flattens nested Annotated, so on
Python-representable inputs this equals the single unwrap in the source.  The
Annotated metadata items are not modelled, since they feed only the
description/constraint/metadata attributes, none of which any claim
concerns.  The origin dispatch determines optional / inner_type /
union_types / actual_type exactly as lines 419-461 of the source do; on
the (Python-unrepresentable, typing deduplicates) union of two null
members, where next() in the source would raise StopIteration, the second
member is taken. -/
def create_usr_field_from_python
    (name : String) (pt0 : PyType) (fi : Option FieldInfo) : USRField :=
  match pt0 with
  | .annotated base => create_usr_field_from_python name base fi
  | .union args =>
    match args with
    | [a, b] =>
      if a.isNone then
        assembleField name fi true
          (some (create_usr_field_from_python (name ++ "_inner") b none)) [] b
      else if b.isNone then
        assembleField name fi true
          (some (create_usr_field_from_python (name ++ "_inner") a none)) [] a
      else
        assembleField name fi false none
          (createUnionFields name 0 [a, b]) (.union [a, b])
    | other =>
      assembleField name fi false none
        (createUnionFields name 0 other) (.union other)
  | .unionOp args =>
    match args with
    | [a, b] =>
      if a.isNone then
        assembleField name fi true
          (some (create_usr_field_from_python (name ++ "_inner") b none)) [] b
      else if b.isNone then
        assembleField name fi true
          (some (create_usr_field_from_python (name ++ "_inner") a none)) [] a
      else
        assembleField name fi false none
          (createUnionFields name 0 [a, b]) (.unionOp [a, b])
    | other =>
      assembleField name fi false none
        (createUnionFields name 0 other) (.unionOp other)
  | .listOf (a :: rest) =>
    assembleField name fi false
      (some (create_usr_field_from_python (name ++ "_item") a none)) []
      (.listOf (a :: rest))
  | .setOf (a :: rest) =>
    assembleField name fi false
      (some (create_usr_field_from_python (name ++ "_item") a none)) []
      (.setOf (a :: rest))
  | .frozensetOf (a :: rest) =>
    assembleField name fi false
      (some (create_usr_field_from_python (name ++ "_item") a none)) []
      (.frozensetOf (a :: rest))
  | .tupleOf args =>
    match args with
    | [] => assembleField name fi false none [] (.tupleOf [])
    | [a, b] =>
      if b.isEllipsis then
        assembleField name fi false
          (some (create_usr_field_from_python (name ++ "_item") a none)) []
          .pyList
      else
        assembleField name fi false none
          (createUnionFields name 0 [a, b]) (.tupleOf [a, b])
    | other =>
      assembleField name fi false none
        (createUnionFields name 0 other) (.tupleOf other)
  | t => assembleField name fi false none [] t

/-- The enumerate-and-map over union / fixed-tuple members:
[cls.create_usr_field_from_python(f"{name}_{i}", arg, None) for i, arg in
enumerate(args)]. -/
def createUnionFields (name : String) (i : Nat) : List PyType → List USRField
  | [] => []
  | a :: rest =>
    create_usr_field_from_python (name ++ "_" ++ toString i) a none ::
      createUnionFields name (i + 1) rest

end

/-- Result of a single validation check (ValidationIssue in core/usr.py). -/
structure ValidationIssue : Type where
  severity : String
  field_name : Option String
  message : String
deriving DecidableEq, Repr

/-- Python truthiness of an optional string attribute (None and the empty
string are falsy). -/
def optStrTruthy : Option String → Bool
  | none => false
  | some s => !(s == "")

/-- USRField.validate from core/usr.py: six independent checks, each
appending at most one issue, in source order. -/
def USRField.validate (f : USRField) : List ValidationIssue :=
  (if f.primary_key && f.optional then
    [⟨"warning", some f.name,
      "Field is marked as primary_key but is also optional"⟩]
   else []) ++
  (if (f.type = .LIST || f.type = .SET || f.type = .FROZENSET)
      && f.inner_type.isNone then
    [⟨"warning", some f.name,
      f.type.value.capitalize ++ " field has no inner_type specified"⟩]
   else []) ++
  (if (f.min_value.isSome || f.max_value.isSome)
      && !(NUMERIC_TYPES.contains f.type) then
    [⟨"warning", some f.name,
      "min_value/max_value set on non-numeric field (type=" ++
        f.type.value ++ ")"⟩]
   else []) ++
  (if (f.min_length.isSome || f.max_length.isSome)
      && !(STRING_LIKE_TYPES.contains f.type) then
    [⟨"warning", some f.name,
      "min_length/max_length set on non-string/non-list field (type=" ++
        f.type.value ++ ")"⟩]
   else []) ++
  (if optStrTruthy f.enum_name && f.enum_values.isEmpty then
    [⟨"error", some f.name,
      "enum_name \x27" ++ f.enum_name.getD "" ++
        "\x27 is set but enum_values is empty"⟩]
   else []) ++
  (if optStrTruthy f.foreign_key && !(optStrTruthy f.relationship) then
    [⟨"info", some f.name,
      "foreign_key is set but no relationship is defined"⟩]
   else [])

/-- Universal representation of a complete schema (USRSchema in
core/usr.py).  The variants dict is embedded as an insertion-ordered
association list, matching Python dict iteration; enums, custom_code,
target_config and metadata are omitted because no modelled operation reads
them. -/
structure USRSchema : Type where
  name : String
  fields : List USRField
  description : Option String
  variants : List (String × List String)
deriving Repr

/-- The variant key list, i.e. Python `variant_name in self.variants` /
`list(self.variants.keys())`. -/
def USRSchema.variantKeys (s : USRSchema) : List String :=
  s.variants.map (·.1)

/-- USRSchema.get_field. -/
def USRSchema.get_field (s : USRSchema) (n : String) : Option USRField :=
  s.fields.find? (fun f => f.name == n)

/-- USRSchema.get_self_referencing_fields, embedded in the accumulate-in-a-loop
form of the source. -/
def USRSchema.get_self_referencing_fields (s : USRSchema) : List USRField :=
  s.fields.foldl
    (fun result f =>
      if f.nested_schema == some s.name
          || ((f.type = .LIST || f.type = .SET || f.type = .FROZENSET)
              && f.inner_type.isSome
              && ((f.inner_type.map USRField.nested_schema).join
                    == some s.name)) then
        result ++ [f]
      else result)
    []

/-- The message of the KeyError raised by get_variant_fields. -/
def variantKeyErrMsg (variant_name schema_name : String)
    (available : List String) : String :=
  "Variant \x27" ++ variant_name ++ "\x27 not found on schema \x27" ++
    schema_name ++ "\x27. Available: [" ++
    String.intercalate ", " available ++ "]"

/-- USRSchema.get_variant_fields: raises KeyError (embedded as
Except.error) when the variant name is not a key of the variants dict,
otherwise filters the schema fields to those whose name is listed under
the variant. -/
def USRSchema.get_variant_fields (s : USRSchema) (variant_name : String) :
    Except String (List USRField) :=
  if !(s.variantKeys.contains variant_name) then
    .error (variantKeyErrMsg variant_name s.name s.variantKeys)
  else
    let variant_field_names := (s.variants.lookup variant_name).getD []
    .ok (s.fields.filter (fun f => variant_field_names.contains f.name))

/-- The message of the error issue USRSchema.validate emits for a variant
referencing a missing field. -/
def variantRefErrMsg (variant_name ref_name schema_name : String) : String :=
  "Variant \x27" ++ variant_name ++ "\x27 references field \x27" ++
    ref_name ++ "\x27 which does not exist on schema \x27" ++
    schema_name ++ "\x27"

/-- USRSchema.validate from core/usr.py, embedded as the two sequential
accumulation loops of the source: per-field issues first, then one error per
dangling (variant, field-name) reference. -/
def USRSchema.validate (s : USRSchema) : List ValidationIssue :=
  let field_names := s.fields.map USRField.name
  let issues := s.fields.foldl (fun acc f => acc ++ f.validate) []
  s.variants.foldl
    (fun acc p =>
      p.2.foldl
        (fun acc2 ref_name =>
          if field_names.contains ref_name then acc2
          else acc2 ++ [⟨"error", none,
                          variantRefErrMsg p.1 ref_name s.name⟩])
        acc)
    issues

/-- str(v).replace(" ", "_").replace("-", "_") applied to a Literal symbol
by the Avro generator. -/
def avroSymbol (v : String) : String :=
  (v.replace " " "_").replace "-" "_"

/-- dedup accumulation from the Avro TUPLE branch: append avro_type only
if not already present. -/
def dedupAppend (acc : List Json) (t : Json) : List Json :=
  if acc.contains t then acc else acc ++ [t]

mutual

/-- AvroGenerator._get_base_avro_type from avro_generator.py, branch for
branch in source order.  FieldType.TIME, JSON and BYTES have no branch in
the source and fall to the final "string" fallback.  The DECIMAL branch
reads precision/scale from field.target_config with defaults 10/2;
target_config is not modelled, so the defaults are used (no claim touches
DECIMAL). -/
def avroBaseType : USRField → Json
  | .mk nm ty _ _ inner unions lits nested ename evals _ _ mn mx _ _ _ _ =>
    match ty with
    | .STRING => .str "string"
    | .INTEGER =>
      if mx.isSome && (mx.getD 0 ≤ 2147483647)
          && mn.isSome && (-2147483648 ≤ mn.getD 0) then
        .str "int"
      else
        .str "long"
    | .FLOAT => .str "double"
    | .BOOLEAN => .str "boolean"
    | .DATETIME =>
      .obj [("type", .str "long"), ("logicalType", .str "timestamp-millis")]
    | .DATE => .obj [("type", .str "int"), ("logicalType", .str "date")]
    | .UUID => .obj [("type", .str "string"), ("logicalType", .str "uuid")]
    | .DECIMAL =>
      .obj [("type", .str "bytes"), ("logicalType", .str "decimal"),
            ("precision", .num 10), ("scale", .num 2)]
    | .LIST =>
      .obj [("type", .str "array"),
            ("items", match inner with
                      | some i => avroBaseType i
                      | none => .str "string")]
    | .SET =>
      .obj [("type", .str "array"),
            ("items", match inner with
                      | some i => avroBaseType i
                      | none => .str "string")]
    | .FROZENSET =>
      .obj [("type", .str "array"),
            ("items", match inner with
                      | some i => avroBaseType i
                      | none => .str "string")]
    | .TUPLE =>
      match unions with
      | [] => .obj [("type", .str "array"), ("items", .str "string")]
      | u :: rest =>
        let inner_types := (avroBaseTypeList (u :: rest)).foldl dedupAppend []
        let items : Json :=
          match inner_types with
          | [single] => single
          | other => .arr other
        .obj [("type", .str "array"), ("items", items)]
    | .DICT => .obj [("type", .str "map"), ("values", .str "string")]
    | .UNION =>
      match unions with
      | [] => .str "string"
      | u :: rest => .arr (avroBaseTypeList (u :: rest))
    | .LITERAL =>
      match lits with
      | [] => .str "string"
      | _ =>
        .obj [("type", .str "enum"),
              ("name", .str (nm.capitalize ++ "Enum")),
              ("symbols", .arr (lits.map (fun v => .str (avroSymbol v))))]
    | .ENUM =>
      match evals with
      | [] => .str "string"
      | _ =>
        .obj [("type", .str "enum"),
              ("name", .str (ename.getD (nm.capitalize ++ "Enum"))),
              ("symbols", .arr (evals.map Json.str))]
    | .NESTED_SCHEMA =>
      match nested with
      | some sname => .str sname
      | none => .null
    | _ => .str "string"

def avroBaseTypeList : List USRField → List Json
  | [] => []
  | f :: rest => avroBaseType f :: avroBaseTypeList rest

end

/-- AvroGenerator._get_avro_type: wraps the base type of an optional field
into a union with "null" first; if the base type is already a union
(a JSON list), "null" is inserted at the front when absent, moved to the
front when present but not first, and the list is kept unchanged when it
already starts with "null". -/
def avroGetType (f : USRField) : Json :=
  let base_type := avroBaseType f
  if f.optional then
    match base_type with
    | .arr xs =>
      if !(xs.any Json.isNullStr) then
        .arr (.str "null" :: xs)
      else if !((xs.headD .null).isNullStr) then
        .arr (.str "null" :: xs.filter (fun t => !t.isNullStr))
      else
        .arr xs
    | other => .arr [.str "null", other]
  else
    base_type

/-- AvroGenerator._generate_field_definition: name and type always; doc
when a description is present (truthy); an explicit default when present,
else default null for optional fields.  Aliases come from field.metadata,
which is not modelled (no claim touches aliases). -/
def avroFieldDef (f : USRField) : Json :=
  .obj ([("name", .str f.name), ("type", avroGetType f)] ++
    (match f.description with
     | some d => if d == "" then [] else [("doc", .str d)]
     | none => []) ++
    (match f.default with
     | some d => [("default", d)]
     | none => if f.optional then [("default", Json.null)] else []))

/-- AvroGenerator._variant_to_record_name: schema name ++ the variant name
converted from snake_case to PascalCase. -/
def variantToRecordName (schema_name variant_name : String) : String :=
  schema_name ++ String.join ((variant_name.splitOn "_").map String.capitalize)

/-- The Avro record object AvroGenerator.generate_model builds (the keys
in dict insertion order: doc, when present, is assigned after the fields
key exists). -/
def avroRecordJson (record_name : String) (s : USRSchema)
    (fields : List USRField) : Json :=
  .obj ([("type", .str "record"),
         ("name", .str record_name),
         ("namespace", .str ("com.example." ++ s.name.toLower)),
         ("fields", .arr (fields.map avroFieldDef))] ++
    (match s.description with
     | some d => if d == "" then [] else [("doc", .str d)]
     | none => []))

/-- AvroGenerator.generate_model:
`fields = schema.get_variant_fields(variant) if variant else schema.fields`
and the record-name derivation both branch on Python truthiness of the
variant argument, so None AND the empty string "" silently render the full
base schema under the schema name; only a truthy variant name goes through
get_variant_fields (raising for an unknown variant) and the variant record
name.  The source returns json.dumps of the record; the record object
itself is the embedded result. -/
def avroGenerateModel (s : USRSchema) (variant : Option String) :
    Except String Json :=
  match variant with
  | some v =>
    if v == "" then
      .ok (avroRecordJson s.name s s.fields)
    else
      match s.get_variant_fields v with
      | .error e => .error e
      | .ok fields =>
        .ok (avroRecordJson (variantToRecordName s.name v) s fields)
  | none => .ok (avroRecordJson s.name s s.fields)

/-- ProtobufGenerator._get_protobuf_type from protobuf_generator.py,
branch for branch in source order.  The NESTED_SCHEMA branch returns
field.nested_schema, which is None when unset; the None object is rendered
as "None" when later interpolated into the field line, which is how it is
embedded here.  SET, FROZENSET, TUPLE, BYTES, TIME, ENUM and JSON have no
branch and fall to the final "string" fallback. -/
def protobufType : USRField → String
  | .mk nm ty _ _ inner _ lits nested _ _ _ _ mn mx _ _ _ _ =>
    match ty with
    | .STRING => "string"
    | .INTEGER =>
      if mn.isSome && (0 ≤ mn.getD 0) then
        if mx.isSome && (mx.getD 0 ≤ 4294967295) then "uint32" else "uint64"
      else
        if mx.isSome && (mx.getD 0 ≤ 2147483647) then "int32" else "int64"
    | .FLOAT => "double"
    | .BOOLEAN => "bool"
    | .DATETIME => "google.protobuf.Timestamp"
    | .DATE => "google.type.Date"
    | .UUID => "string"
    | .DECIMAL => "double"
    | .LIST =>
      match inner with
      | some i => protobufType i
      | none => "string"
    | .DICT => "map<string, string>"
    | .UNION => "google.protobuf.Any"
    | .LITERAL =>
      match lits with
      | [] => "string"
      | _ => nm.capitalize ++ "Enum"
    | .NESTED_SCHEMA =>
      match nested with
      | some sname => sname
      | none => "None"
    | _ => "string"

/-- The one-level Annotated unwrap applied at the top of
create_usr_field_from_python. -/
def unwrapAnn1 : PyType → PyType
  | .annotated base => base
  | t => t

/-- The full Annotated strip (typing flattens nested Annotated, so in
Python at most one level ever occurs; stripping fully makes the
classification lemma total over the embedding). -/
def stripAnn : PyType → PyType
  | .annotated base => stripAnn base
  | t => t

/-- A union-like declaration (either union spelling) of exactly two
members one of which is the null type: the condition under which
create_usr_field_from_python takes its Optional branch. -/
def isTwoNullUnion : PyType → Bool
  | .union [a, b] => a.isNone || b.isNone
  | .unionOp [a, b] => a.isNone || b.isNone
  | _ => false

/-- The non-null member such a union resolves to
(next(arg for arg in args if arg is not type(None))). -/
def nonNullMember : PyType → PyType
  | .union [a, b] => if a.isNone then b else a
  | .unionOp [a, b] => if a.isNone then b else a
  | t => t

/-- A typing.Union (spelled with typing.Union, the only spelling
python_type_to_usr recognizes) of two members one of which is null: the
shape classified OPTIONAL. -/
def isOptUnionShape : PyType → Bool
  | .union [a, b] => a.isNone || b.isNone
  | _ => false

/-- A two-element tuple parameter list whose second element is the
Ellipsis marker (the variadic-tuple condition in the source). -/
def isVariadicPair : List PyType → Bool
  | [_, b] => b.isEllipsis
  | _ => false

/- Generic lemmas about the accumulation loops the source uses. -/

theorem foldl_append_flatten {α β : Type} (g : α → List β) :
    ∀ (l : List α) (init : List β),
      l.foldl (fun acc x => acc ++ g x) init = init ++ (l.map g).flatten := by
  intro l
  induction l with
  | nil => intro init; simp
  | cons a rest ih =>
    intro init
    simp only [List.foldl_cons, List.map_cons, List.flatten_cons]
    rw [ih, List.append_assoc]

theorem foldl_append_filter {α : Type} (p : α → Bool) :
    ∀ (l : List α) (init : List α),
      l.foldl (fun acc x => if p x then acc ++ [x] else acc) init
        = init ++ l.filter p := by
  intro l
  induction l with
  | nil => intro init; simp
  | cons a rest ih =>
    intro init
    simp only [List.foldl_cons]
    by_cases h : p a
    · simp [h, ih, List.filter_cons, List.append_assoc]
    · simp [h, ih, List.filter_cons]

theorem foldl_guard_append {α β : Type} (c : α → Bool) (e : α → β) :
    ∀ (l : List α) (init : List β),
      l.foldl (fun acc x => if c x then acc else acc ++ [e x]) init
        = init ++ l.filterMap (fun x => if c x then none else some (e x)) := by
  intro l
  induction l with
  | nil => intro init; simp
  | cons a rest ih =>
    intro init
    simp only [List.foldl_cons, List.filterMap_cons]
    by_cases h : c a
    · simp [h, ih]
    · simp [h, ih, List.append_assoc]

theorem lookup_mem {β : Type} :
    ∀ (l : List (String × β)) (k : String) (v : β),
      l.lookup k = some v → (k, v) ∈ l
  | (k1, v1) :: rest, k, v, h => by
    rw [List.lookup] at h
    cases hbe : (k == k1) with
    | true =>
      rw [hbe] at h
      simp only [Option.some.injEq] at h
      have hk : k = k1 := eq_of_beq hbe
      subst hk
      subst h
      exact List.Mem.head rest
    | false =>
      rw [hbe] at h
      exact List.Mem.tail _ (lookup_mem rest k v h)

theorem keys_contains_of_lookup {β : Type} :
    ∀ (l : List (String × β)) (k : String) (v : β),
      l.lookup k = some v → (l.map (·.1)).contains k = true := by
  intro l k v h
  have hm : k ∈ l.map (·.1) := List.mem_map_of_mem (·.1) (lookup_mem l k v h)
  exact List.elem_eq_true_of_mem hm

theorem lookup_isSome_of_keys_contains {β : Type} :
    ∀ (l : List (String × β)) (k : String),
      (l.map (·.1)).contains k = true → (l.lookup k).isSome = true
  | [], k, h => by simp at h
  | (k1, v1) :: rest, k, h => by
    rw [List.lookup]
    cases hbe : (k == k1) with
    | true => simp
    | false =>
      show (List.lookup k rest).isSome = true
      apply lookup_isSome_of_keys_contains rest
      simp only [List.map_cons, List.contains_cons, Bool.or_eq_true] at h
      rcases h with h1 | h1
      · exact absurd h1 (by simp [hbe])
      · exact h1

/-- python_type_to_usr classifies a value as the OPTIONAL sentinel exactly
when, after stripping Annotated wrappers, it is a typing.Union of two
members one of which is the null type. -/
theorem optional_classification : ∀ t : PyType,
    (python_type_to_usr t = .OPTIONAL ↔ isOptUnionShape (stripAnn t) = true)
  | .pyStr => by simp [python_type_to_usr, stripAnn, isOptUnionShape]
  | .pyInt => by simp [python_type_to_usr, stripAnn, isOptUnionShape]
  | .pyFloat => by simp [python_type_to_usr, stripAnn, isOptUnionShape]
  | .pyBool => by simp [python_type_to_usr, stripAnn, isOptUnionShape]
  | .pyBytes => by simp [python_type_to_usr, stripAnn, isOptUnionShape]
  | .pyDict => by simp [python_type_to_usr, stripAnn, isOptUnionShape]
  | .pyList => by simp [python_type_to_usr, stripAnn, isOptUnionShape]
  | .pySet => by simp [python_type_to_usr, stripAnn, isOptUnionShape]
  | .pyFrozenset => by simp [python_type_to_usr, stripAnn, isOptUnionShape]
  | .pyTuple => by simp [python_type_to_usr, stripAnn, isOptUnionShape]
  | .noneType => by simp [python_type_to_usr, stripAnn, isOptUnionShape]
  | .pyDatetime => by simp [python_type_to_usr, stripAnn, isOptUnionShape]
  | .pyDate => by simp [python_type_to_usr, stripAnn, isOptUnionShape]
  | .pyTime => by simp [python_type_to_usr, stripAnn, isOptUnionShape]
  | .pyUuid => by simp [python_type_to_usr, stripAnn, isOptUnionShape]
  | .pyDecimal => by simp [python_type_to_usr, stripAnn, isOptUnionShape]
  | .ellipsisT => by simp [python_type_to_usr, stripAnn, isOptUnionShape]
  | .forwardRef s => by simp [python_type_to_usr, stripAnn, isOptUnionShape]
  | .unionOp args => by simp [python_type_to_usr, stripAnn, isOptUnionShape]
  | .listOf args => by simp [python_type_to_usr, stripAnn, isOptUnionShape]
  | .setOf args => by simp [python_type_to_usr, stripAnn, isOptUnionShape]
  | .frozensetOf args => by
    simp [python_type_to_usr, stripAnn, isOptUnionShape]
  | .tupleOf args => by simp [python_type_to_usr, stripAnn, isOptUnionShape]
  | .dictOf args => by simp [python_type_to_usr, stripAnn, isOptUnionShape]
  | .literalOf vals => by simp [python_type_to_usr, stripAnn, isOptUnionShape]
  | .enumT n vals => by simp [python_type_to_usr, stripAnn, isOptUnionShape]
  | .classRef n => by simp [python_type_to_usr, stripAnn, isOptUnionShape]
  | .annotated b => by
    rw [show python_type_to_usr (.annotated b) = python_type_to_usr b from rfl,
        show stripAnn (.annotated b) = stripAnn b from rfl]
    exact optional_classification b
  | .union args => by
    cases args with
    | nil => simp [python_type_to_usr, stripAnn, isOptUnionShape]
    | cons a tail =>
      cases tail with
      | nil => simp [python_type_to_usr, stripAnn, isOptUnionShape]
      | cons b tail2 =>
        cases tail2 with
        | nil =>
          by_cases h : (a.isNone || b.isNone) = true <;>
            simp [python_type_to_usr, stripAnn, isOptUnionShape, h]
        | cons c tail3 => simp [python_type_to_usr, stripAnn, isOptUnionShape]

/-- create_usr_field_from_python only unwraps Annotated wrappers before
dispatching: it agrees with itself on the Annotated-stripped type. -/
theorem create_strip : ∀ (name : String) (pt0 : PyType) (fi : Option FieldInfo),
    create_usr_field_from_python name pt0 fi
      = create_usr_field_from_python name (stripAnn pt0) fi
  | name, .annotated base, fi => by
    rw [show create_usr_field_from_python name (.annotated base) fi
          = create_usr_field_from_python name base fi from rfl,
        show stripAnn (.annotated base) = stripAnn base from rfl]
    exact create_strip name base fi
  | name, .pyStr, fi => rfl
  | name, .pyInt, fi => rfl
  | name, .pyFloat, fi => rfl
  | name, .pyBool, fi => rfl
  | name, .pyBytes, fi => rfl
  | name, .pyDict, fi => rfl
  | name, .pyList, fi => rfl
  | name, .pySet, fi => rfl
  | name, .pyFrozenset, fi => rfl
  | name, .pyTuple, fi => rfl
  | name, .noneType, fi => rfl
  | name, .pyDatetime, fi => rfl
  | name, .pyDate, fi => rfl
  | name, .pyTime, fi => rfl
  | name, .pyUuid, fi => rfl
  | name, .pyDecimal, fi => rfl
  | name, .ellipsisT, fi => rfl
  | name, .forwardRef s, fi => rfl
  | name, .union args, fi => rfl
  | name, .unionOp args, fi => rfl
  | name, .listOf args, fi => rfl
  | name, .setOf args, fi => rfl
  | name, .frozensetOf args, fi => rfl
  | name, .tupleOf args, fi => rfl
  | name, .dictOf args, fi => rfl
  | name, .literalOf vals, fi => rfl
  | name, .enumT n vals, fi => rfl
  | name, .classRef n, fi => rfl

/-- On a two-member null-containing union (either spelling),
create_usr_field_from_python sets the optional flag, classifies the
non-null member as the field type, and recursively maps the non-null
member into inner_type. -/
theorem create_twoNull (name : String) (q : PyType)
    (fi : Option FieldInfo) (h : isTwoNullUnion q = true) :
    (create_usr_field_from_python name q fi).optional = true
    ∧ (create_usr_field_from_python name q fi).type
        = python_type_to_usr (nonNullMember q)
    ∧ (create_usr_field_from_python name q fi).inner_type
        = some (create_usr_field_from_python
                  (name ++ "_inner") (nonNullMember q) none) := by
  cases q with
  | union args =>
    match args with
    | [] => simp [isTwoNullUnion] at h
    | [a] => simp [isTwoNullUnion] at h
    | a :: b :: c :: rest => simp [isTwoNullUnion] at h
    | [a, b] =>
      cases ha : a.isNone with
      | true =>
        refine ⟨?_, ?_, ?_⟩ <;>
          simp [create_usr_field_from_python, assembleField, nonNullMember, ha,
            USRField.optional, USRField.type, USRField.inner_type]
      | false =>
        have hb : b.isNone = true := by
          simp [isTwoNullUnion, ha] at h; exact h
        refine ⟨?_, ?_, ?_⟩ <;>
          simp [create_usr_field_from_python, assembleField, nonNullMember,
            ha, hb, USRField.optional, USRField.type, USRField.inner_type]
  | unionOp args =>
    match args with
    | [] => simp [isTwoNullUnion] at h
    | [a] => simp [isTwoNullUnion] at h
    | a :: b :: c :: rest => simp [isTwoNullUnion] at h
    | [a, b] =>
      cases ha : a.isNone with
      | true =>
        refine ⟨?_, ?_, ?_⟩ <;>
          simp [create_usr_field_from_python, assembleField, nonNullMember, ha,
            USRField.optional, USRField.type, USRField.inner_type]
      | false =>
        have hb : b.isNone = true := by
          simp [isTwoNullUnion, ha] at h; exact h
        refine ⟨?_, ?_, ?_⟩ <;>
          simp [create_usr_field_from_python, assembleField, nonNullMember,
            ha, hb, USRField.optional, USRField.type, USRField.inner_type]
  | pyStr => simp [isTwoNullUnion] at h
  | pyInt => simp [isTwoNullUnion] at h
  | pyFloat => simp [isTwoNullUnion] at h
  | pyBool => simp [isTwoNullUnion] at h
  | pyBytes => simp [isTwoNullUnion] at h
  | pyDict => simp [isTwoNullUnion] at h
  | pyList => simp [isTwoNullUnion] at h
  | pySet => simp [isTwoNullUnion] at h
  | pyFrozenset => simp [isTwoNullUnion] at h
  | pyTuple => simp [isTwoNullUnion] at h
  | noneType => simp [isTwoNullUnion] at h
  | pyDatetime => simp [isTwoNullUnion] at h
  | pyDate => simp [isTwoNullUnion] at h
  | pyTime => simp [isTwoNullUnion] at h
  | pyUuid => simp [isTwoNullUnion] at h
  | pyDecimal => simp [isTwoNullUnion] at h
  | ellipsisT => simp [isTwoNullUnion] at h
  | forwardRef s => simp [isTwoNullUnion] at h
  | listOf args => simp [isTwoNullUnion] at h
  | setOf args => simp [isTwoNullUnion] at h
  | frozensetOf args => simp [isTwoNullUnion] at h
  | tupleOf args => simp [isTwoNullUnion] at h
  | dictOf args => simp [isTwoNullUnion] at h
  | literalOf vals => simp [isTwoNullUnion] at h
  | enumT n vals => simp [isTwoNullUnion] at h
  | annotated b => simp [isTwoNullUnion] at h
  | classRef n => simp [isTwoNullUnion] at h

def PyType.isAnnotated : PyType → Bool
  | .annotated _ => true
  | _ => false

theorem stripAnn_not_annotated : ∀ t : PyType, (stripAnn t).isAnnotated = false
  | .annotated b => by
    rw [show stripAnn (.annotated b) = stripAnn b from rfl]
    exact stripAnn_not_annotated b
  | .pyStr | .pyInt | .pyFloat | .pyBool | .pyBytes | .pyDict | .pyList
  | .pySet | .pyFrozenset | .pyTuple | .noneType | .pyDatetime | .pyDate
  | .pyTime | .pyUuid | .pyDecimal | .ellipsisT => rfl
  | .forwardRef _ | .union _ | .unionOp _ | .listOf _ | .setOf _
  | .frozensetOf _ | .tupleOf _ | .dictOf _ | .literalOf _
  | .enumT _ _ | .classRef _ => rfl

/-- On everything that is not an Annotated wrapper and not a two-member
null-containing union, create_usr_field_from_python leaves the optional
flag false. -/
theorem create_not_twoNull (name : String) (q : PyType)
    (fi : Option FieldInfo) (hqa : q.isAnnotated = false)
    (h : isTwoNullUnion q = false) :
    (create_usr_field_from_python name q fi).optional = false := by
  cases q with
  | annotated b => simp [PyType.isAnnotated] at hqa
  | union args =>
    match args with
    | [] =>
      simp [create_usr_field_from_python, assembleField, USRField.optional]
    | [a] =>
      simp [create_usr_field_from_python, assembleField, USRField.optional]
    | a :: b :: c :: rest =>
      simp [create_usr_field_from_python, assembleField, USRField.optional]
    | [a, b] =>
      have hab : a.isNone = false ∧ b.isNone = false := by
        simp [isTwoNullUnion] at h; tauto
      simp [create_usr_field_from_python, assembleField, hab.1, hab.2,
        USRField.optional]
  | unionOp args =>
    match args with
    | [] =>
      simp [create_usr_field_from_python, assembleField, USRField.optional]
    | [a] =>
      simp [create_usr_field_from_python, assembleField, USRField.optional]
    | a :: b :: c :: rest =>
      simp [create_usr_field_from_python, assembleField, USRField.optional]
    | [a, b] =>
      have hab : a.isNone = false ∧ b.isNone = false := by
        simp [isTwoNullUnion] at h; tauto
      simp [create_usr_field_from_python, assembleField, hab.1, hab.2,
        USRField.optional]
  | listOf args =>
    cases args <;>
      simp [create_usr_field_from_python, assembleField, USRField.optional]
  | setOf args =>
    cases args <;>
      simp [create_usr_field_from_python, assembleField, USRField.optional]
  | frozensetOf args =>
    cases args <;>
      simp [create_usr_field_from_python, assembleField, USRField.optional]
  | tupleOf args =>
    match args with
    | [] =>
      simp [create_usr_field_from_python, assembleField, USRField.optional]
    | [a] =>
      simp [create_usr_field_from_python, assembleField, USRField.optional]
    | a :: b :: c :: rest =>
      simp [create_usr_field_from_python, assembleField, USRField.optional]
    | [a, b] =>
      cases hb : b.isEllipsis <;>
        simp [create_usr_field_from_python, assembleField, hb,
          USRField.optional]
  | pyStr => simp [create_usr_field_from_python, assembleField, USRField.optional]
  | pyInt => simp [create_usr_field_from_python, assembleField, USRField.optional]
  | pyFloat => simp [create_usr_field_from_python, assembleField, USRField.optional]
  | pyBool => simp [create_usr_field_from_python, assembleField, USRField.optional]
  | pyBytes => simp [create_usr_field_from_python, assembleField, USRField.optional]
  | pyDict => simp [create_usr_field_from_python, assembleField, USRField.optional]
  | pyList => simp [create_usr_field_from_python, assembleField, USRField.optional]
  | pySet => simp [create_usr_field_from_python, assembleField, USRField.optional]
  | pyFrozenset => simp [create_usr_field_from_python, assembleField, USRField.optional]
  | pyTuple => simp [create_usr_field_from_python, assembleField, USRField.optional]
  | noneType => simp [create_usr_field_from_python, assembleField, USRField.optional]
  | pyDatetime => simp [create_usr_field_from_python, assembleField, USRField.optional]
  | pyDate => simp [create_usr_field_from_python, assembleField, USRField.optional]
  | pyTime => simp [create_usr_field_from_python, assembleField, USRField.optional]
  | pyUuid => simp [create_usr_field_from_python, assembleField, USRField.optional]
  | pyDecimal => simp [create_usr_field_from_python, assembleField, USRField.optional]
  | ellipsisT => simp [create_usr_field_from_python, assembleField, USRField.optional]
  | forwardRef s => simp [create_usr_field_from_python, assembleField, USRField.optional]
  | dictOf args => simp [create_usr_field_from_python, assembleField, USRField.optional]
  | literalOf vals => simp [create_usr_field_from_python, assembleField, USRField.optional]
  | enumT n vals => simp [create_usr_field_from_python, assembleField, USRField.optional]
  | classRef n => simp [create_usr_field_from_python, assembleField, USRField.optional]

/-- Claim C1 counterexample: for the Python-representable declaration
Union[Annotated[Optional[int], meta], None] the produced field has
optional true AND the sentinel OPTIONAL type tag: python_type_to_usr
unwraps the Annotated wrapper of the non-null member and classifies the
nested optional union as OPTIONAL, so the field type IS the sentinel,
refuting the "never the sentinel OPTIONAL type tag" part of the claim. -/
theorem c1_counterexample :
    (create_usr_field_from_python "f"
       (.union [.annotated (.union [.pyInt, .noneType]), .noneType])
       none).optional = true
    ∧ (create_usr_field_from_python "f"
       (.union [.annotated (.union [.pyInt, .noneType]), .noneType])
       none).type = .OPTIONAL :=
  ⟨rfl, rfl⟩

/-- Claim C1 (amended): for every field produced by
create_usr_field_from_python, optional is true exactly when the
declaration, after stripping Annotated wrappers, is a union (either
spelling) of exactly two members one of which is the null type; in that
case the field type equals the classification of the non-null member and
the recursively mapped non-null member is stored in inner_type; that
classification is the sentinel OPTIONAL tag exactly when the non-null
member is itself an Annotated-wrapped two-member null-containing
typing.Union (the only way Python can nest an optional union inside a
union, since typing flattens directly nested unions), and otherwise never
OPTIONAL. -/
theorem c1_claim (name : String) (pt0 : PyType) (fi : Option FieldInfo) :
    ((create_usr_field_from_python name pt0 fi).optional = true
       ↔ isTwoNullUnion (stripAnn pt0) = true)
    ∧ (isTwoNullUnion (stripAnn pt0) = true →
        (create_usr_field_from_python name pt0 fi).type
            = python_type_to_usr (nonNullMember (stripAnn pt0))
        ∧ (create_usr_field_from_python name pt0 fi).inner_type
            = some (create_usr_field_from_python (name ++ "_inner")
                      (nonNullMember (stripAnn pt0)) none)
        ∧ ((create_usr_field_from_python name pt0 fi).type = .OPTIONAL
             ↔ isOptUnionShape
                 (stripAnn (nonNullMember (stripAnn pt0))) = true)) := by
  rw [create_strip name pt0 fi]
  constructor
  · constructor
    · intro hopt
      by_contra hfalse
      have hf : isTwoNullUnion (stripAnn pt0) = false := by
        cases hx : isTwoNullUnion (stripAnn pt0)
        · rfl
        · exact absurd hx hfalse
      have hne := create_not_twoNull name (stripAnn pt0) fi
        (stripAnn_not_annotated pt0) hf
      rw [hne] at hopt
      exact Bool.false_ne_true hopt
    · intro htrue
      exact (create_twoNull name (stripAnn pt0) fi htrue).1
  · intro htrue
    have h := create_twoNull name (stripAnn pt0) fi htrue
    refine ⟨h.2.1, h.2.2, ?_⟩
    rw [h.2.1]
    exact optional_classification (nonNullMember (stripAnn pt0))

/-- Witness for c1_claim at the spec scenario declaration int-or-None. -/
theorem c1_witness :
    (create_usr_field_from_python "age" (.union [.pyInt, .noneType])
       none).optional = true
    ∧ (create_usr_field_from_python "age" (.union [.pyInt, .noneType])
       none).type = .INTEGER
    ∧ ¬((create_usr_field_from_python "age" (.union [.pyInt, .noneType])
       none).type = .OPTIONAL) := by
  have h := c1_claim "age" (.union [.pyInt, .noneType]) none
  have h2 := h.2 (by rfl)
  refine ⟨h.1.mpr (by rfl), ?_, ?_⟩
  · rw [h2.1]; rfl
  · intro hc
    have hx := h2.2.2.mp hc
    simp [stripAnn, nonNullMember, isOptUnionShape] at hx

/-- Claim C2, evaluated at the failing input, the PEP 604 declaration
str | int | float (a types.UnionType value on Python 3.10-3.13):
create_usr_field_from_python recursively maps all three members into
union_types, but python_type_to_usr recognizes only typing.Union as the
union origin, so the PEP 604 union falls through every branch to the
NESTED_SCHEMA fallback and the field type is NESTED_SCHEMA, not UNION. -/
theorem c2_claim :
    (create_usr_field_from_python "v" (.unionOp [.pyStr, .pyInt, .pyFloat])
       none).type = .NESTED_SCHEMA
    ∧ ¬((create_usr_field_from_python "v" (.unionOp [.pyStr, .pyInt, .pyFloat])
       none).type = .UNION)
    ∧ (create_usr_field_from_python "v" (.unionOp [.pyStr, .pyInt, .pyFloat])
       none).union_types
        = [create_usr_field_from_python "v_0" .pyStr none,
           create_usr_field_from_python "v_1" .pyInt none,
           create_usr_field_from_python "v_2" .pyFloat none]
    ∧ ((create_usr_field_from_python "v" (.unionOp [.pyStr, .pyInt, .pyFloat])
       none).union_types.map USRField.type) = [.STRING, .INTEGER, .FLOAT]
    ∧ (create_usr_field_from_python "v" (.union [.pyStr, .pyInt, .pyFloat])
       none).type = .UNION := by
  refine ⟨rfl, by decide, rfl, rfl, rfl⟩

theorem createUnionFields_length (name : String) :
    ∀ (args : List PyType) (i : Nat),
      (createUnionFields name i args).length = args.length
  | [], i => rfl
  | a :: rest, i => by
    simp only [createUnionFields, List.length_cons]
    rw [createUnionFields_length name rest (i + 1)]

theorem createUnionFields_getElem (name : String) :
    ∀ (args : List PyType) (j i : Nat),
      (createUnionFields name j args)[i]?
        = (args[i]?).map (fun t =>
            create_usr_field_from_python
              (name ++ "_" ++ toString (j + i)) t none)
  | [], j, i => by simp [createUnionFields]
  | a :: rest, j, 0 => by simp [createUnionFields]
  | a :: rest, j, (i + 1) => by
    simp only [createUnionFields, List.getElem?_cons_succ]
    rw [createUnionFields_getElem name rest (j + 1) i]
    have : j + 1 + i = j + (i + 1) := by omega
    rw [this]

/-- Claim C3: a parametrized tuple whose two parameters end with the
Ellipsis marker re-targets to LIST with the first parameter recursively
mapped into inner_type (union_types stays empty); any other parameter list
yields TUPLE with each positional parameter recursively mapped into
union_types in declared order under the indexed child names. -/
theorem c3_claim (name : String) (fi : Option FieldInfo) :
    (∀ a : PyType,
       (create_usr_field_from_python name (.tupleOf [a, .ellipsisT]) fi).type
           = .LIST
       ∧ (create_usr_field_from_python name
            (.tupleOf [a, .ellipsisT]) fi).inner_type
           = some (create_usr_field_from_python (name ++ "_item") a none)
       ∧ (create_usr_field_from_python name
            (.tupleOf [a, .ellipsisT]) fi).union_types = [])
    ∧ (∀ args : List PyType, isVariadicPair args = false →
       (create_usr_field_from_python name (.tupleOf args) fi).type = .TUPLE
       ∧ (create_usr_field_from_python name
            (.tupleOf args) fi).union_types.length = args.length
       ∧ ∀ i : Nat,
           ((create_usr_field_from_python name (.tupleOf args) fi).union_types)[i]?
             = (args[i]?).map (fun t =>
                 create_usr_field_from_python
                   (name ++ "_" ++ toString i) t none)) := by
  constructor
  · intro a
    refine ⟨?_, ?_, ?_⟩ <;>
      simp [create_usr_field_from_python, assembleField, PyType.isEllipsis,
        python_type_to_usr, USRField.type, USRField.inner_type,
        USRField.union_types]
  · intro args hvar
    have key : (create_usr_field_from_python name (.tupleOf args) fi).type
          = .TUPLE
        ∧ (create_usr_field_from_python name (.tupleOf args) fi).union_types
          = createUnionFields name 0 args := by
      match args with
      | [] =>
        refine ⟨rfl, ?_⟩
        simp [create_usr_field_from_python, assembleField,
          createUnionFields, USRField.union_types]
      | [a] =>
        exact ⟨rfl, rfl⟩
      | [a, b] =>
        have hb : b.isEllipsis = false := by
          simpa [isVariadicPair] using hvar
        refine ⟨?_, ?_⟩ <;>
          simp [create_usr_field_from_python, assembleField, hb,
            python_type_to_usr, USRField.type, USRField.union_types]
      | a :: b :: c :: rest =>
        exact ⟨rfl, rfl⟩
    refine ⟨key.1, ?_, ?_⟩
    · rw [key.2, createUnionFields_length]
    · intro i
      rw [key.2, createUnionFields_getElem]
      simp only [Nat.zero_add]

/-- Witness for c3_claim: the spec scenarios, a variadic tuple of
strings and a fixed (string, integer, boolean) 3-tuple. -/
theorem c3_witness :
    (create_usr_field_from_python "t" (.tupleOf [.pyStr, .ellipsisT])
       none).type = .LIST
    ∧ ((create_usr_field_from_python "t" (.tupleOf [.pyStr, .ellipsisT])
       none).inner_type.map USRField.type) = some .STRING
    ∧ (create_usr_field_from_python "p"
         (.tupleOf [.pyStr, .pyInt, .pyBool]) none).type = .TUPLE
    ∧ ((create_usr_field_from_python "p"
         (.tupleOf [.pyStr, .pyInt, .pyBool]) none).union_types)[1]?
        = some (create_usr_field_from_python "p_1" .pyInt none) := by
  have h1 := (c3_claim "t" none).1 .pyStr
  have h2 := (c3_claim "p" none).2 [.pyStr, .pyInt, .pyBool] (by decide)
  refine ⟨h1.1, ?_, h2.1, ?_⟩
  · rw [h1.2.1]; rfl
  · rw [h2.2.2 1]; rfl

/-- Claim C4: get_self_referencing_fields returns exactly the fields, in
declaration order, that reference the schema directly by nested_schema or
through the inner_type of a LIST/SET/FROZENSET container. -/
theorem c4_claim (s : USRSchema) :
    s.get_self_referencing_fields
      = s.fields.filter (fun f =>
          f.nested_schema == some s.name
          || ((f.type == .LIST || f.type == .SET || f.type == .FROZENSET)
              && (match f.inner_type with
                  | some i => i.nested_schema == some s.name
                  | none => false))) := by
  unfold USRSchema.get_self_referencing_fields
  rw [foldl_append_filter]
  rw [List.nil_append]
  apply List.filter_congr
  intro f _
  cases hi : f.inner_type with
  | none => simp [hi]
  | some i =>
    simp only [hi, Option.map_some', Option.isSome_some, Bool.true_and,
      Bool.and_true]
    rfl

theorem foldl_nested_guard {α β γ : Type} (c : γ → Bool) (e : α → γ → β)
    (sel : α → List γ) :
    ∀ (l : List α) (init : List β),
      l.foldl
        (fun acc p =>
          (sel p).foldl
            (fun acc2 x => if c x then acc2 else acc2 ++ [e p x]) acc)
        init
      = init ++ (l.map (fun p =>
          (sel p).filterMap
            (fun x => if c x then none else some (e p x)))).flatten := by
  intro l
  induction l with
  | nil => intro init; simp
  | cons a rest ih =>
    intro init
    simp only [List.foldl_cons, List.map_cons, List.flatten_cons]
    rw [foldl_guard_append, ih, List.append_assoc]

/-- USRSchema.validate, characterized: the concatenation of the per-field
issues in declaration order, followed by one error per dangling
(variant, fieldName) pair in variant-then-name declaration order. -/
theorem validate_eq (s : USRSchema) :
    s.validate
      = (s.fields.map USRField.validate).flatten
        ++ (s.variants.map (fun p =>
             p.2.filterMap (fun rn =>
               if (s.fields.map USRField.name).contains rn then none
               else some ⟨"error", none,
                           variantRefErrMsg p.1 rn s.name⟩))).flatten := by
  show s.variants.foldl _ (s.fields.foldl (fun acc f => acc ++ f.validate) [])
        = _
  rw [foldl_nested_guard
        (fun rn => (s.fields.map USRField.name).contains rn)
        (fun p rn => (⟨"error", none, variantRefErrMsg p.1 rn s.name⟩ :
          ValidationIssue))
        Prod.snd,
      foldl_append_flatten]
  simp

/-- The "name" field of the validation scenario schema: a plain required
string field with no constraints, whose own validate() is empty. -/
def c5NameField : USRField :=
  USRField.mk "name" .STRING false none none [] [] none none [] none none
    none none false none none none

/-- The validation scenario schema: one field "name", one variant "create"
listing "name" and the missing field name "missing". -/
def c5Schema : USRSchema :=
  ⟨"Ex", [c5NameField], none, [("create", ["name", "missing"])]⟩

/-- Claim C5: validate() returns the issues of every field in field declaration
order followed by exactly one error per dangling (variant, fieldName)
pair in variant-then-name declaration order; on the scenario schema with
variants create -> [name, missing] and no field "missing", it returns
exactly one error whose message mentions both "create" and "missing". -/
theorem c5_claim :
    (∀ s : USRSchema,
      s.validate
        = (s.fields.map USRField.validate).flatten
          ++ (s.variants.map (fun p =>
               p.2.filterMap (fun rn =>
                 if (s.fields.map USRField.name).contains rn then none
                 else some ⟨"error", none,
                             variantRefErrMsg p.1 rn s.name⟩))).flatten)
    ∧ c5Schema.validate
        = [⟨"error", none,
            "Variant \x27create\x27 references field \x27missing\x27 which does not exist on schema \x27Ex\x27"⟩] :=
  ⟨validate_eq, by rfl⟩

theorem gvf_err (s : USRSchema) (v : String)
    (hc : s.variantKeys.contains v = false) :
    s.get_variant_fields v = .error (variantKeyErrMsg v s.name s.variantKeys) := by
  unfold USRSchema.get_variant_fields
  rw [hc]
  rfl

theorem gvf_ok (s : USRSchema) (v : String) (names : List String)
    (h : s.variants.lookup v = some names) :
    s.get_variant_fields v
      = .ok (s.fields.filter (fun f => names.contains f.name)) := by
  have hc : s.variantKeys.contains v = true :=
    keys_contains_of_lookup s.variants v names h
  unfold USRSchema.get_variant_fields
  rw [hc, h]
  rfl

/-- Claim C6: get_variant_fields raises (never falls back to the full
field list) on an undeclared variant name, and on a declared variant
returns, in field-declaration order, exactly the fields whose names the
variant lists. -/
theorem c6_claim (s : USRSchema) (v : String) :
    (s.variantKeys.contains v = false →
       s.get_variant_fields v
         = .error (variantKeyErrMsg v s.name s.variantKeys)
       ∧ (s.get_variant_fields v).isOk = false)
    ∧ (∀ names : List String, s.variants.lookup v = some names →
       s.get_variant_fields v
         = .ok (s.fields.filter (fun f => names.contains f.name))) := by
  constructor
  · intro hc
    have he := gvf_err s v hc
    exact ⟨he, by rw [he]; rfl⟩
  · intro names h
    exact gvf_ok s v names h

/-- Witness for c6_claim on the scenario schema: the undeclared variant
"nope" errors, the declared variant "create" projects to the one existing
listed field. -/
theorem c6_witness :
    c5Schema.get_variant_fields "nope"
      = .error (variantKeyErrMsg "nope" "Ex" ["create"])
    ∧ c5Schema.get_variant_fields "create" = .ok [c5NameField] := by
  have h := c6_claim c5Schema "nope"
  have h2 := (c6_claim c5Schema "create").2 ["name", "missing"] (by rfl)
  refine ⟨(h.1 (by rfl)).1, ?_⟩
  rw [h2]
  rfl

/-- Claim C10: on a declared variant, get_variant_fields returns normally
even when the variant lists names matching no field: the projection is the
silent filter (dangling names contribute nothing), and the dangling names
are reported only by validate(), as error issues. -/
theorem c10_claim (s : USRSchema) (v : String) (names : List String)
    (h : s.variants.lookup v = some names) :
    (s.get_variant_fields v).isOk = true
    ∧ s.get_variant_fields v
        = .ok (s.fields.filter (fun f => names.contains f.name))
    ∧ (∀ rn, rn ∈ names → (s.fields.map USRField.name).contains rn = false →
        (⟨"error", none, variantRefErrMsg v rn s.name⟩ : ValidationIssue)
          ∈ s.validate) := by
  have hok := gvf_ok s v names h
  refine ⟨by rw [hok]; rfl, hok, ?_⟩
  intro rn hrn hcon
  rw [validate_eq]
  apply List.mem_append_right
  apply List.mem_flatten.mpr
  refine ⟨names.filterMap (fun rn2 =>
    if (s.fields.map USRField.name).contains rn2 then none
    else some ⟨"error", none, variantRefErrMsg v rn2 s.name⟩), ?_, ?_⟩
  · exact List.mem_map.mpr ⟨(v, names), lookup_mem s.variants v names h, rfl⟩
  · apply List.mem_filterMap.mpr
    exact ⟨rn, hrn, by rw [hcon]; simp⟩

/-- Witness for c10_claim on the scenario schema: projecting the
declared variant "create" succeeds, silently omitting "missing", while
validate() carries the corresponding error issue. -/
theorem c10_witness :
    (c5Schema.get_variant_fields "create").isOk = true
    ∧ c5Schema.get_variant_fields "create" = .ok [c5NameField]
    ∧ (⟨"error", none, variantRefErrMsg "create" "missing" "Ex"⟩ :
        ValidationIssue) ∈ c5Schema.validate := by
  have h := c10_claim c5Schema "create" ["name", "missing"] (by rfl)
  refine ⟨h.1, ?_, ?_⟩
  · rw [h.2.1]; rfl
  · exact h.2.2 "missing" (by simp) (by rfl)

/-- The invalid-schema scenario for rendering: an ENUM field with
enum_name set but no enum_values, which validate() reports as an error. -/
def c9BadField : USRField :=
  USRField.mk "e" .ENUM false none none [] [] none (some "Color") [] none
    none none none false none none none

def c9Schema : USRSchema := ⟨"Bad", [c9BadField], none, []⟩

/-- Claim C9 counterexample: c9Schema fails validation with an
error-severity issue, yet generate_model of the Avro backend renders it and
returns a result instead of raising. -/
theorem c9_counterexample :
    (c9Schema.validate).any (fun i => i.severity == "error") = true
    ∧ (avroGenerateModel c9Schema none).isOk = true :=
  ⟨rfl, rfl⟩

/-- Claim C9 (amended): rendering does not consult validate() and does
not raise on validation failure: generate_model of the Avro backend
returns generated output for every schema rendered without a variant,
with a falsy (empty) variant name, or with a declared variant - including
every schema whose validate() result contains error-severity issues. -/
theorem c9_claim (s : USRSchema) :
    (avroGenerateModel s none).isOk = true
    ∧ (avroGenerateModel s (some "")).isOk = true
    ∧ (∀ v names, s.variants.lookup v = some names →
        (avroGenerateModel s (some v)).isOk = true) := by
  refine ⟨rfl, rfl, ?_⟩
  intro v names h
  show (if (v == "") = true then
          (.ok (avroRecordJson s.name s s.fields) : Except String Json)
        else
          match s.get_variant_fields v with
          | .error e => .error e
          | .ok fields =>
            .ok (avroRecordJson (variantToRecordName s.name v) s
              fields)).isOk = true
  cases hv : (v == "") with
  | true => rfl
  | false =>
    show (match s.get_variant_fields v with
          | .error e => (.error e : Except String Json)
          | .ok fields =>
            .ok (avroRecordJson (variantToRecordName s.name v) s
              fields)).isOk = true
    rw [gvf_ok s v names h]
    rfl

/-- Witness for c9_claim on the scenario schema, discharging the declared
variant hypothesis at the variant "create". -/
theorem c9_witness :
    (avroGenerateModel c5Schema (some "create")).isOk = true :=
  (c9_claim c5Schema).2.2 "create" ["name", "missing"] (by rfl)

theorem null_head_shape (xs : List Json)
    (hh : (xs.headD Json.null).isNullStr = true) :
    ∃ ys, xs = Json.str "null" :: ys := by
  cases xs with
  | nil => simp [Json.isNullStr] at hh
  | cons y ys =>
    cases y with
    | str s =>
      have hs : s = "null" := by
        have : (s == "null") = true := by simpa [Json.isNullStr] using hh
        exact eq_of_beq this
      exact ⟨ys, by rw [hs]⟩
    | num n => simp [Json.isNullStr] at hh
    | bool b => simp [Json.isNullStr] at hh
    | null => simp [Json.isNullStr] at hh
    | arr zs => simp [Json.isNullStr] at hh
    | obj ms => simp [Json.isNullStr] at hh

/-- Claim C7: for every optional field, the emitted Avro type is a union
whose branch 0 is the "null" marker; a non-union base type becomes the
two-branch union [null, base]; a base type that is already a union gets
null prepended when absent, and moved to the front (ahead of the non-null
branches, in their original order) when present but not first - never
appended. -/
theorem c7_claim (f : USRField) (h : f.optional = true) :
    (∃ rest, avroGetType f = .arr (.str "null" :: rest))
    ∧ (∀ b : Json, avroBaseType f = b → (∀ xs, b ≠ .arr xs) →
        avroGetType f = .arr [.str "null", b])
    ∧ (∀ xs, avroBaseType f = .arr xs → xs.any Json.isNullStr = false →
        avroGetType f = .arr (.str "null" :: xs))
    ∧ (∀ xs, avroBaseType f = .arr xs → xs.any Json.isNullStr = true →
        (xs.headD .null).isNullStr = false →
        avroGetType f
          = .arr (.str "null" :: xs.filter (fun t => !t.isNullStr))) := by
  refine ⟨?_, ?_, ?_, ?_⟩
  · cases hb : avroBaseType f with
    | arr xs =>
      cases hany : xs.any Json.isNullStr with
      | false => exact ⟨xs, by simp [avroGetType, h, hb, hany]⟩
      | true =>
        cases hhead : (xs.headD Json.null).isNullStr with
        | false =>
          rw [List.headD_eq_head?] at hhead
          exact ⟨xs.filter (fun t => !t.isNullStr),
            by simp [avroGetType, h, hb, hany, hhead]⟩
        | true =>
          obtain ⟨ys, hys⟩ := null_head_shape xs
            (by rw [List.headD_eq_head?]; rw [List.headD_eq_head?] at hhead; exact hhead)
          rw [List.headD_eq_head?] at hhead
          refine ⟨ys, ?_⟩
          rw [show avroGetType f = .arr xs from
                by simp [avroGetType, h, hb, hany, hhead], hys]
    | str s => exact ⟨[.str s], by simp [avroGetType, h, hb]⟩
    | num n => exact ⟨[.num n], by simp [avroGetType, h, hb]⟩
    | bool b => exact ⟨[.bool b], by simp [avroGetType, h, hb]⟩
    | null => exact ⟨[.null], by simp [avroGetType, h, hb]⟩
    | obj ms => exact ⟨[.obj ms], by simp [avroGetType, h, hb]⟩
  · intro b hb hnotarr
    cases b with
    | arr xs => exact absurd rfl (hnotarr xs)
    | str s => simp [avroGetType, h, hb]
    | num n => simp [avroGetType, h, hb]
    | bool b2 => simp [avroGetType, h, hb]
    | null => simp [avroGetType, h, hb]
    | obj ms => simp [avroGetType, h, hb]
  · intro xs hb hany
    simp [avroGetType, h, hb, hany]
  · intro xs hb hany hhead
    rw [List.headD_eq_head?] at hhead
    simp [avroGetType, h, hb, hany, hhead]

/-- The spec scenario 6 field: an optional union of (string, integer)
members in that declared order. -/
def c7Field : USRField :=
  USRField.mk "val" .UNION true none none
    [USRField.mk "val_0" .STRING false none none [] [] none none [] none
       none none none false none none none,
     USRField.mk "val_1" .INTEGER false none none [] [] none none [] none
       none none none false none none none]
    [] none none [] none none none none false none none none

/-- Witness for c7_claim: the optional union-of-(string, integer) field
renders with branch order [null, string, long]. -/
theorem c7_witness :
    avroGetType c7Field
      = .arr [.str "null", .str "string", .str "long"] := by
  have h := (c7_claim c7Field rfl).2.2.1
  exact h [.str "string", .str "long"] rfl rfl

def protoSignedWidthSpec : Option Int → String
  | some M => if M ≤ 2147483647 then "int32" else "int64"
  | none => "int64"

/-- The claim C8 width-selection rule, written from the spec: a declared
lower bound >= 0 picks unsigned sized by the declared upper bound (32-bit
cutoff 2^32 - 1, else 64-bit); otherwise signed with the 32-bit signed
cutoff 2^31 - 1. -/
def protoIntWidthSpec : Option Int → Option Int → String
  | some m, mx =>
    if 0 ≤ m then
      match mx with
      | some M => if M ≤ 4294967295 then "uint32" else "uint64"
      | none => "uint64"
    else protoSignedWidthSpec mx
  | none, mx => protoSignedWidthSpec mx

/-- Claim C8: for every INTEGER field, the Protobuf backend picks exactly
the width/signedness the spec rule dictates from min_value/max_value. -/
theorem c8_claim (f : USRField) (h : f.type = .INTEGER) :
    protobufType f = protoIntWidthSpec f.min_value f.max_value := by
  cases f with
  | mk nm ty opt d inner unions lits nested ename evals ml xl mv xv pk fk r ds =>
    have hty : ty = .INTEGER := by simpa [USRField.type] using h
    subst hty
    show (if mv.isSome && (0 ≤ mv.getD 0)
            then if xv.isSome && (xv.getD 0 ≤ 4294967295)
                 then "uint32" else "uint64"
            else if xv.isSome && (xv.getD 0 ≤ 2147483647)
                 then "int32" else "int64")
        = protoIntWidthSpec mv xv
    cases mv with
    | none =>
      cases xv with
      | none => rfl
      | some M =>
        by_cases hM : M ≤ 2147483647 <;>
          simp [protoIntWidthSpec, protoSignedWidthSpec, hM]
    | some m =>
      by_cases hm : 0 ≤ m
      · cases xv with
        | none => simp [protoIntWidthSpec, hm]
        | some M =>
          by_cases hM : M ≤ 4294967295 <;>
            simp [protoIntWidthSpec, hm, hM]
      · cases xv with
        | none => simp [protoIntWidthSpec, protoSignedWidthSpec, hm]
        | some M =>
          by_cases hM : M ≤ 2147483647 <;>
            simp [protoIntWidthSpec, protoSignedWidthSpec, hm, hM]

/-- The c8 witness field: integer with declared bounds [0, 2^32 - 1]. -/
def c8Field : USRField :=
  USRField.mk "n" .INTEGER false none none [] [] none none [] none none
    (some 0) (some 4294967295) false none none none

/-- Witness for c8_claim: bounds [0, 2^32 - 1] select uint32. -/
theorem c8_witness : protobufType c8Field = "uint32" := by
  have h := c8_claim c8Field rfl
  rw [h]
  rfl

end SchemaGen
